import Mathlib

/-!
Verification development for the deckmanager control-surface daemon.

The definitions below are a shallow embedding of the Rust sources under
`src-tauri/src/`: each definition's doc comment names the Rust symbol it
models.  Machine integers are modelled as `Nat`/`Int` (all the arithmetic
involved is overflow-free: `u16` coordinates are cast to `i32` before any
subtraction in the source), `f32` volume arithmetic is modelled over `ℚ`,
fallible operations return `Option`, and ambient effects (the wall clock,
the filesystem, spawned processes) are passed explicitly as parameters or
returned as data.
-/

namespace DeckSpec

/-- `binding.rs::InputRef`: reference to a physical input. -/
inductive InputRef where
  | Button (index : Nat)
  | Encoder (index : Nat)
  | EncoderPress (index : Nat)
  | Swipe
deriving DecidableEq, Repr

/-- `capability.rs::KeyLightAction`. -/
inductive KeyLightAction where
  | Toggle
  | On
  | Off
  | SetBrightness
deriving DecidableEq, Repr

/-- `capability.rs::OBSStreamAction`. -/
inductive OBSStreamAction where
  | Toggle
  | Start
  | Stop
deriving DecidableEq, Repr

/-- `capability.rs::OBSRecordAction`. -/
inductive OBSRecordAction where
  | Toggle
  | Start
  | Stop
  | TogglePause
deriving DecidableEq, Repr

/-- `capability.rs::OBSReplayAction`. -/
inductive OBSReplayAction where
  | Toggle
  | Start
  | Stop
  | Save
deriving DecidableEq, Repr

/-- `capability.rs::Capability`: the closed taxonomy of actions.  `f32`
parameters are modelled as `ℚ`, `u16` ports as `Nat`. -/
inductive Capability where
  | SystemAudio (step : ℚ)
  | Mute
  | VolumeUp (step : ℚ)
  | VolumeDown (step : ℚ)
  | Microphone (step : ℚ)
  | MicMute
  | MicVolumeUp (step : ℚ)
  | MicVolumeDown (step : ℚ)
  | MediaPlayPause
  | MediaNext
  | MediaPrevious
  | MediaStop
  | RunCommand (command : String) (toggle : Bool)
  | LaunchApp (command : String)
  | OpenURL (url : String)
  | ElgatoKeyLight (ip : String) (port : Nat) (action : KeyLightAction)
  | OBSScene (host : String) (port : Nat) (password : Option String) (scene : String)
  | OBSStream (host : String) (port : Nat) (password : Option String) (action : OBSStreamAction)
  | OBSRecord (host : String) (port : Nat) (password : Option String) (action : OBSRecordAction)
  | OBSSourceVisibility (host : String) (port : Nat) (password : Option String)
      (scene : String) (source : String)
  | OBSAudio (host : String) (port : Nat) (password : Option String)
      (input_name : String) (step : ℚ)
  | OBSStudioMode (host : String) (port : Nat) (password : Option String)
  | OBSReplayBuffer (host : String) (port : Nat) (password : Option String)
      (action : OBSReplayAction)
  | OBSVirtualCam (host : String) (port : Nat) (password : Option String)
  | OBSTransition (host : String) (port : Nat) (password : Option String)
deriving DecidableEq, Repr

/-- `binding.rs::Binding`.  The trailing cosmetic fields are `Option`s, as in
the source. -/
structure Binding where
  input : InputRef
  capability : Capability
  page : Nat
  icon : Option String
  label : Option String
  button_image : Option String
  button_image_alt : Option String
  show_label : Option Bool
deriving DecidableEq, Repr

/-- `events.rs::ButtonEvent`. -/
structure ButtonEvent where
  index : Nat
  pressed : Bool
deriving DecidableEq, Repr

/-- `events.rs::EncoderEvent` (`delta: i8` modelled as `Int`). -/
structure EncoderEvent where
  index : Nat
  delta : Int
deriving DecidableEq, Repr

/-- `events.rs::TouchSwipeEvent`; the source field `end` is called `endp`
here because `end` is a Lean keyword. -/
structure TouchSwipeEvent where
  start : Nat × Nat
  endp : Nat × Nat
deriving DecidableEq, Repr

/-- `input_processor.rs::LogicalEvent`. -/
inductive LogicalEvent where
  | Button (e : ButtonEvent)
  | Encoder (e : EncoderEvent)
  | EncoderPress (e : ButtonEvent)
  | Swipe (e : TouchSwipeEvent)
deriving DecidableEq, Repr

/-- `input_processor.rs::SwipeDirection`. -/
inductive SwipeDirection where
  | Left
  | Right
deriving DecidableEq, Repr

/-- `input_processor.rs::SWIPE_THRESHOLD`. -/
def SWIPE_THRESHOLD : Int := 50

/-- `input_processor.rs::detect_swipe_direction`: the `u16` coordinates are
cast to `i32` (losslessly) before subtracting, exactly as the source does. -/
def detect_swipe_direction (start endp : Nat × Nat) : Option SwipeDirection :=
  let dx : Int := (endp.1 : Int) - (start.1 : Int)
  let dy : Int := |(endp.2 : Int) - (start.2 : Int)|
  if dy > |dx| then
    none
  else if dx > SWIPE_THRESHOLD then
    some SwipeDirection.Right
  else if dx < -SWIPE_THRESHOLD then
    some SwipeDirection.Left
  else
    none

/-- `streamdeck.rs::get_max_page`: maximum page number over the bindings,
`0` if there are none (`.max().unwrap_or(0)`). -/
def get_max_page (bindings : List Binding) : Nat :=
  (bindings.map (fun b => b.page)).foldr max 0

/-- The touch-swipe handling step of `streamdeck.rs::run_event_loop`
(the `StreamDeckInput::TouchScreenSwipe` arm): returns the page stored after
the step and the `streamdeck:page` payload `(page, page_count)` emitted, if
any.  A swipe failing classification falls through to binding dispatch and
neither moves the page nor emits. -/
def handle_swipe_nav (bindings : List Binding) (page : Nat) (start endp : Nat × Nat) :
    Nat × Option (Nat × Nat) :=
  match detect_swipe_direction start endp with
  | none => (page, none)
  | some direction =>
    let max_allowed_page := get_max_page bindings + 1
    let page_count := max_allowed_page + 1
    let new_page :=
      match direction with
      | SwipeDirection.Left => if page ≥ max_allowed_page then page else page + 1
      | SwipeDirection.Right => if page = 0 then 0 else page - 1
    if new_page ≠ page then (new_page, some (new_page, page_count)) else (page, none)

/-- A binding on page 0 (scenario S3: bindings exist only on page 0). -/
def s3Binding : Binding :=
  { input := InputRef.Button 0, capability := Capability.Mute, page := 0,
    icon := none, label := none, button_image := none, button_image_alt := none,
    show_label := none }

/-- C8: the swipe classifier returns `Right` iff `b.x - a.x > 50` and
`|b.y - a.y| ≤ |b.x - a.x|`, `Left` iff `a.x - b.x > 50` and
`|b.y - a.y| ≤ |b.x - a.x|`, and `None` otherwise (boundaries `|dx| = 50`
and `dy = |dx|` included on the `None` resp. non-`None` side as forced by
the strict/non-strict comparisons). -/
theorem detect_swipe_direction_spec (a b : Nat × Nat) :
    (detect_swipe_direction a b = some SwipeDirection.Right ↔
      ((b.1 : Int) - (a.1 : Int) > 50 ∧
        |(b.2 : Int) - (a.2 : Int)| ≤ |(b.1 : Int) - (a.1 : Int)|)) ∧
    (detect_swipe_direction a b = some SwipeDirection.Left ↔
      ((a.1 : Int) - (b.1 : Int) > 50 ∧
        |(b.2 : Int) - (a.2 : Int)| ≤ |(b.1 : Int) - (a.1 : Int)|)) ∧
    (detect_swipe_direction a b = none ↔
      (¬((b.1 : Int) - (a.1 : Int) > 50 ∧
          |(b.2 : Int) - (a.2 : Int)| ≤ |(b.1 : Int) - (a.1 : Int)|) ∧
       ¬((a.1 : Int) - (b.1 : Int) > 50 ∧
          |(b.2 : Int) - (a.2 : Int)| ≤ |(b.1 : Int) - (a.1 : Int)|))) := by
  obtain ⟨a1, a2⟩ := a
  obtain ⟨b1, b2⟩ := b
  simp only [detect_swipe_direction, SWIPE_THRESHOLD]
  split_ifs with h1 h2 h3
  · refine ⟨?_, ?_, ?_⟩
    · exact iff_of_false (by simp) (fun h => absurd h.2 (not_le.mpr h1))
    · exact iff_of_false (by simp) (fun h => absurd h.2 (not_le.mpr h1))
    · exact iff_of_true rfl
        ⟨fun h => absurd h.2 (not_le.mpr h1), fun h => absurd h.2 (not_le.mpr h1)⟩
  · refine ⟨?_, ?_, ?_⟩
    · exact iff_of_true rfl ⟨h2, not_lt.mp h1⟩
    · exact iff_of_false (by simp) (fun h => absurd h.1 (by omega))
    · exact iff_of_false (by simp) (fun h => h.1 ⟨h2, not_lt.mp h1⟩)
  · refine ⟨?_, ?_, ?_⟩
    · exact iff_of_false (by simp) (fun h => absurd h.1 (by omega))
    · exact iff_of_true rfl ⟨by omega, not_lt.mp h1⟩
    · exact iff_of_false (by simp) (fun h => h.2 ⟨by omega, not_lt.mp h1⟩)
  · refine ⟨?_, ?_, ?_⟩
    · exact iff_of_false (by simp) (fun h => absurd h.1 (by omega))
    · exact iff_of_false (by simp) (fun h => absurd h.1 (by omega))
    · exact iff_of_true rfl
        ⟨fun h => absurd h.1 (by omega), fun h => absurd h.1 (by omega)⟩

/-- C2 counterexample: with bindings only on page 0 and current page 0, the
S3 swipe from `(100,50)` to `(220,55)` is classified `Right`, which the code
maps to the *previous* page: the page stays 0 and nothing is emitted, not
`new_page = 1` with a `streamdeck:page{page=1, page_count=2}` emission as the
claim states. -/
theorem page_swipe_s3_counterexample :
    handle_swipe_nav [s3Binding] 0 (100, 50) (220, 55) = (0, none) ∧
    handle_swipe_nav [s3Binding] 0 (100, 50) (220, 55) ≠ (1, some (1, 2)) := by
  decide

/-- C2 amended: on a classified swipe from a page in the navigable range,
a `Left`-classified swipe advances (`new_page = min (page+1) (max_bound_page+1)`,
the clamp of `page+1`), a `Right`-classified swipe goes back
(`new_page = page - 1`, the clamp of `page-1`), and
`streamdeck:page{new_page, max_bound_page+2}` is emitted exactly when the page
changed. -/
theorem handle_swipe_nav_clamp (bindings : List Binding) (page : Nat)
    (start endp : Nat × Nat) (dir : SwipeDirection)
    (hdir : detect_swipe_direction start endp = some dir)
    (hpage : page ≤ get_max_page bindings + 1) :
    (handle_swipe_nav bindings page start endp).1 =
      (match dir with
        | SwipeDirection.Left => min (page + 1) (get_max_page bindings + 1)
        | SwipeDirection.Right => page - 1) ∧
    (handle_swipe_nav bindings page start endp).2 =
      (if (handle_swipe_nav bindings page start endp).1 = page then none
       else some ((handle_swipe_nav bindings page start endp).1,
                  get_max_page bindings + 2)) := by
  cases dir <;>
    simp only [handle_swipe_nav, hdir] <;>
    constructor <;>
    split_ifs <;>
    simp_all <;>
    omega

/-- C2 amended, witnessed at the mirror of scenario S3: the swipe from
`(220,55)` to `(100,50)` is `Left`-classified and advances page 0 to page 1,
emitting `streamdeck:page{page=1, page_count=2}`. -/
theorem handle_swipe_nav_clamp_witness :
    detect_swipe_direction (220, 55) (100, 50) = some SwipeDirection.Left ∧
    (0 : Nat) ≤ get_max_page [s3Binding] + 1 ∧
    ((handle_swipe_nav [s3Binding] 0 (220, 55) (100, 50)).1 =
      (match SwipeDirection.Left with
        | SwipeDirection.Left => min (0 + 1) (get_max_page [s3Binding] + 1)
        | SwipeDirection.Right => 0 - 1) ∧
     (handle_swipe_nav [s3Binding] 0 (220, 55) (100, 50)).2 =
      (if (handle_swipe_nav [s3Binding] 0 (220, 55) (100, 50)).1 = 0 then none
       else some ((handle_swipe_nav [s3Binding] 0 (220, 55) (100, 50)).1,
                  get_max_page [s3Binding] + 2))) :=
  ⟨by decide, by decide,
    handle_swipe_nav_clamp [s3Binding] 0 (220, 55) (100, 50) SwipeDirection.Left
      (by decide) (by decide)⟩

/-- `commands.rs::inputs_match`. -/
def inputs_match : InputRef → InputRef → Bool
  | InputRef.Button i1, InputRef.Button i2 => i1 == i2
  | InputRef.Encoder i1, InputRef.Encoder i2 => i1 == i2
  | InputRef.EncoderPress i1, InputRef.EncoderPress i2 => i1 == i2
  | InputRef.Swipe, InputRef.Swipe => true
  | _, _ => false

/-- `commands.rs::SetBindingParams`: note there is no `page` field. -/
structure SetBindingParams where
  input : InputRef
  capability : Capability
  icon : Option String
  label : Option String
  button_image : Option String
  show_label : Option Bool
deriving DecidableEq, Repr

/-- The binding-list mutation performed by `commands.rs::set_binding`:
retain the bindings whose input does not match, push the new one.  The
source's struct literal gives the new binding no `page` and no
`button_image_alt`; their serde defaults are `0` and `None`. -/
def set_binding (bindings : List Binding) (params : SetBindingParams) : List Binding :=
  bindings.filter (fun b => ! inputs_match b.input params.input) ++
    [{ input := params.input, capability := params.capability, page := 0,
       icon := params.icon, label := params.label,
       button_image := params.button_image, button_image_alt := none,
       show_label := params.show_label }]

/-- A pre-existing binding on page 1 for button 0. -/
def c3Prior : Binding :=
  { input := InputRef.Button 0, capability := Capability.MediaPlayPause, page := 1,
    icon := none, label := none, button_image := none, button_image_alt := none,
    show_label := none }

/-- A pre-existing binding on a different input (encoder 3, page 5). -/
def c3Keep : Binding :=
  { input := InputRef.Encoder 3, capability := Capability.MediaStop, page := 5,
    icon := none, label := none, button_image := none, button_image_alt := none,
    show_label := none }

/-- `set_binding` parameters targeting button 0. -/
def c3Params : SetBindingParams :=
  { input := InputRef.Button 0, capability := Capability.Mute,
    icon := none, label := none, button_image := none, show_label := none }

/-- Reflexivity of `inputs_match`. -/
theorem inputs_match_self (i : InputRef) : inputs_match i i = true := by
  cases i <;> simp [inputs_match]

/-- C3 counterexample: `set_binding` (which takes no page argument) evicts a
prior binding for the same input even though it lives on another page: with
only the page-1 binding for button 0 stored, a `set_binding` for button 0
removes it (no page-1 binding survives), contradicting "bindings with the
same input on other pages are untouched". -/
theorem set_binding_cross_page_evicted :
    (set_binding [c3Prior] c3Params).countP (fun b => b.page == 1) = 0 ∧
    c3Prior ∉ set_binding [c3Prior] c3Params := by
  decide

/-- C3 amended: `set_binding` evicts every stored binding whose input
structurally matches the new input, on any page, and appends one new binding
(whose page is the serde default 0); afterwards exactly one binding with a
matching input is stored, and bindings with non-matching inputs are
untouched. -/
theorem set_binding_unique_input (bindings : List Binding) (params : SetBindingParams) :
    (set_binding bindings params).countP (fun b => inputs_match b.input params.input) = 1 ∧
    ∀ b ∈ bindings, inputs_match b.input params.input = false →
      b ∈ set_binding bindings params := by
  constructor
  · unfold set_binding
    rw [List.countP_append]
    have h0 : (bindings.filter (fun b => ! inputs_match b.input params.input)).countP
        (fun b => inputs_match b.input params.input) = 0 := by
      rw [List.countP_eq_zero]
      intro b hb
      have := List.of_mem_filter hb
      simp only [Bool.not_eq_true'] at this
      simp [this]
    rw [h0]
    simp [List.countP_cons, inputs_match_self]
  · intro b hb hne
    unfold set_binding
    refine List.mem_append_left _ ?_
    exact List.mem_filter.mpr ⟨hb, by simp [hne]⟩

/-- C3 amended, witnessed: after `set_binding` for button 0 over a list
holding a binding for encoder 3, exactly one button-0 binding is stored and
the encoder-3 binding survives. -/
theorem set_binding_unique_input_witness :
    (set_binding [c3Keep] c3Params).countP
        (fun b => inputs_match b.input c3Params.input) = 1 ∧
    c3Keep ∈ set_binding [c3Keep] c3Params :=
  ⟨(set_binding_unique_input [c3Keep] c3Params).1,
    (set_binding_unique_input [c3Keep] c3Params).2 c3Keep (by decide) (by decide)⟩

/-- `state_manager.rs::KeyLightState` (with `plugin-elgato` it is
`plugins/elgato/client.rs::KeyLightState`, same shape).  The source field
`on` is called `is_on` here because `on` is a Lean keyword. -/
structure KeyLightState where
  is_on : Bool
  brightness : Nat
  temperature : Nat
deriving DecidableEq, Repr

/-- `state_manager.rs::OBSState`; the maps are association lists here. -/
structure OBSState where
  streaming : Bool
  recording : Bool
  recording_paused : Bool
  studio_mode : Bool
  virtual_cam : Bool
  replay_buffer : Bool
  current_scene : String
  muted_inputs : List (String × Bool)
  source_visibility : List (String × Bool)
deriving DecidableEq, Repr

/-- `state_manager.rs::SystemState`; the `HashMap`s are association lists. -/
structure SystemState where
  is_muted : Bool
  is_mic_muted : Bool
  is_playing : Bool
  key_lights : List (String × KeyLightState)
  toggle_states : List (String × Bool)
  obs_states : List (String × OBSState)
deriving DecidableEq, Repr

/-- The three booleans read by `check_mute_state` / `check_mic_mute_state` /
`check_playing_state` (results of the external `wpctl` / `playerctl`
invocations, passed in as data). -/
structure PolledState where
  is_muted : Bool
  is_mic_muted : Bool
  is_playing : Bool
deriving DecidableEq, Repr

/-- `state_manager.rs::get_current_state`: a fresh snapshot from the polled
booleans, with empty `key_lights`, `toggle_states` and `obs_states`. -/
def get_current_state (polled : PolledState) : SystemState :=
  { is_muted := polled.is_muted, is_mic_muted := polled.is_mic_muted,
    is_playing := polled.is_playing, key_lights := [], toggle_states := [],
    obs_states := [] }

/-- One poll iteration of `state_manager.rs::run_state_poller` (both the
"check now" and the every-20-ticks branch run this same code): build
`get_current_state`, copy the existing `key_lights` over (inlined below as
one record literal), and replace the whole state when any of the three
booleans flipped.  Returns the state after the iteration and whether
`state:change` was emitted. -/
def poll_step (current : SystemState) (polled : PolledState) : SystemState × Bool :=
  let new_state : SystemState :=
    { is_muted := polled.is_muted, is_mic_muted := polled.is_mic_muted,
      is_playing := polled.is_playing, key_lights := current.key_lights,
      toggle_states := [], obs_states := [] }
  let state_changed := new_state.is_muted != current.is_muted
      || new_state.is_mic_muted != current.is_mic_muted
      || new_state.is_playing != current.is_playing
  if state_changed then (new_state, true) else (current, false)

/-- C4: whenever the poller detects a flip of `is_muted`, `is_mic_muted` or
`is_playing`, the whole `SystemState` is replaced by a fresh snapshot whose
`toggle_states` and `obs_states` are empty; only `key_lights` is carried
over from the previous state. -/
theorem poll_step_erases_plugin_state (current : SystemState) (polled : PolledState)
    (hchanged : (poll_step current polled).2 = true) :
    (poll_step current polled).1.toggle_states = [] ∧
    (poll_step current polled).1.obs_states = [] ∧
    (poll_step current polled).1.key_lights = current.key_lights ∧
    (poll_step current polled).1.is_muted = polled.is_muted ∧
    (poll_step current polled).1.is_mic_muted = polled.is_mic_muted ∧
    (poll_step current polled).1.is_playing = polled.is_playing := by
  by_cases hc : (polled.is_muted != current.is_muted
      || polled.is_mic_muted != current.is_mic_muted
      || polled.is_playing != current.is_playing) = true
  · simp [poll_step, hc]
  · simp [poll_step, hc] at hchanged

/-- A pre-poll state with non-empty key-light, toggle and OBS maps. -/
def c4Current : SystemState :=
  { is_muted := false, is_mic_muted := false, is_playing := false,
    key_lights := [("192.168.1.10:9123", { is_on := true, brightness := 50, temperature := 200 })],
    toggle_states := [("btn:0:0", true)],
    obs_states := [("127.0.0.1:4455",
      { streaming := true, recording := false, recording_paused := false,
        studio_mode := false, virtual_cam := false, replay_buffer := false,
        current_scene := "Main", muted_inputs := [], source_visibility := [] })] }

/-- A poll result flipping `is_muted`. -/
def c4Polled : PolledState :=
  { is_muted := true, is_mic_muted := false, is_playing := false }

/-- C4 witnessed at a mute flip over a state with non-empty toggle and OBS
maps: the flip is detected, and the resulting state has empty `toggle_states`
and `obs_states` with `key_lights` preserved. -/
theorem poll_step_erases_plugin_state_witness :
    (poll_step c4Current c4Polled).2 = true ∧
    ((poll_step c4Current c4Polled).1.toggle_states = [] ∧
     (poll_step c4Current c4Polled).1.obs_states = [] ∧
     (poll_step c4Current c4Polled).1.key_lights = c4Current.key_lights ∧
     (poll_step c4Current c4Polled).1.is_muted = c4Polled.is_muted ∧
     (poll_step c4Current c4Polled).1.is_mic_muted = c4Polled.is_mic_muted ∧
     (poll_step c4Current c4Polled).1.is_playing = c4Polled.is_playing) :=
  ⟨by decide, poll_step_erases_plugin_state c4Current c4Polled (by decide)⟩

/-- `str::starts_with` on the underlying character lists. -/
def list_starts_with : List Char → List Char → Bool
  | _, [] => true
  | [], _ :: _ => false
  | c :: cs, p :: ps => c == p && list_starts_with cs ps

/-- `str::starts_with(prefix)`. -/
def str_starts_with (s p : String) : Bool :=
  list_starts_with s.data p.data

/-- `image_cache.rs::CacheEntry`: the decoded image is abstracted to a
numeric identifier, `cached_at` (an `Instant`) and file mtimes
(`SystemTime`) to `Nat` timestamps. -/
structure CacheEntry where
  image : Nat
  cached_at : Nat
  file_mtime : Option Nat
deriving DecidableEq, Repr

/-- `image_cache.rs::URL_CACHE_TTL` (5 minutes), in seconds. -/
def URL_CACHE_TTL : Nat := 300

/-- `image_cache.rs::MAX_CACHE_ENTRIES`. -/
def MAX_CACHE_ENTRIES : Nat := 100

/-- The URL test used throughout `image_cache.rs`:
`source.starts_with("http://") || source.starts_with("https://")`. -/
def is_url_source (s : String) : Bool :=
  str_starts_with s "http://" || str_starts_with s "https://"

/-- `image_cache.rs::ImageCache::get`.  The `LruCache` is an association
list whose head is the most-recently-used entry; `fs` is the
`fs::metadata(..).modified()` oracle (`none` = either call failed); `now` is
the current instant.  Returns the image (if the entry exists and is valid)
and the cache afterwards: an invalid entry is popped, a valid one promoted
to most-recently-used. -/
def cache_get (fs : String → Option Nat) (now : Nat)
    (entries : List (String × CacheEntry)) (source : String) :
    Option Nat × List (String × CacheEntry) :=
  match entries.lookup source with
  | none => (none, entries)
  | some entry =>
    if is_url_source source then
      if now - entry.cached_at > URL_CACHE_TTL then
        (none, entries.filter (fun p => p.1 != source))
      else
        (some entry.image, (source, entry) :: entries.filter (fun p => p.1 != source))
    else
      match entry.file_mtime with
      | some cached_mtime =>
        match fs source with
        | some current_mtime =>
          if current_mtime != cached_mtime then
            (none, entries.filter (fun p => p.1 != source))
          else
            (some entry.image, (source, entry) :: entries.filter (fun p => p.1 != source))
        | none =>
          (some entry.image, (source, entry) :: entries.filter (fun p => p.1 != source))
      | none =>
        (some entry.image, (source, entry) :: entries.filter (fun p => p.1 != source))

/-- `image_cache.rs::ImageCache::put`: stores under the key as
most-recently-used, recording the file mtime for local sources; the
`LruCache` capacity bound drops the least-recently-used overflow. -/
def cache_put (fs : String → Option Nat) (now : Nat)
    (entries : List (String × CacheEntry)) (source : String) (image : Nat) :
    List (String × CacheEntry) :=
  let file_mtime := if ! is_url_source source then fs source else none
  ((source, { image := image, cached_at := now, file_mtime := file_mtime }) ::
      entries.filter (fun p => p.1 != source)).take MAX_CACHE_ENTRIES

/-- A local-file cache entry recorded with mtime 5. -/
def c5Entry : CacheEntry := { image := 42, cached_at := 0, file_mtime := some 5 }

/-- A filesystem on which every metadata read fails. -/
def c5FsUnreadable : String → Option Nat := fun _ => none

/-- A filesystem on which the file's mtime reads as 7. -/
def c5FsChanged : String → Option Nat := fun _ => some 7

/-- C5 counterexample: for a local-file entry whose source's metadata is
unreadable (e.g. the file was deleted), `get` still returns the cached image
and keeps the entry — the claim says unreadable metadata counts as invalid,
the entry is removed and the read returns none. -/
theorem cache_get_unreadable_counterexample :
    (cache_get c5FsUnreadable 0 [("icon.png", c5Entry)] "icon.png").1 = some 42 ∧
    ((cache_get c5FsUnreadable 0 [("icon.png", c5Entry)] "icon.png").2).lookup "icon.png"
        = some c5Entry := by
  decide

/-- C5 amended: a local-file entry is withheld (and popped) only when the
source's metadata is readable, yields an mtime, and that mtime differs from
the recorded one; a matching mtime, an unreadable metadata, or an entry
recorded without an mtime are all treated as valid, returning the cached
image (and promoting the entry). -/
theorem cache_get_local_mtime_spec (fs : String → Option Nat) (now : Nat)
    (entries : List (String × CacheEntry)) (source : String) (entry : CacheEntry)
    (hurl : is_url_source source = false)
    (hmem : entries.lookup source = some entry) :
    ((cache_get fs now entries source).1 = none ↔
      ∃ m cur, entry.file_mtime = some m ∧ fs source = some cur ∧ cur ≠ m) ∧
    ((cache_get fs now entries source).1 = none →
      ((cache_get fs now entries source).2).lookup source = none) ∧
    ((cache_get fs now entries source).1 ≠ none →
      (cache_get fs now entries source).1 = some entry.image) := by
  have hlookup_filter : ∀ l : List (String × CacheEntry),
      (l.filter (fun p => p.1 != source)).lookup source = none := by
    intro l
    induction l with
    | nil => rfl
    | cons p rest ih =>
      by_cases hp : p.1 = source
      · simp [List.filter_cons, hp, ih]
      · have hb : (p.1 != source) = true := bne_iff_ne.mpr hp
        have hsb : (source == p.1) = false := beq_eq_false_iff_ne.mpr (Ne.symm hp)
        simp [List.filter_cons, hb, List.lookup, hsb, ih]
  unfold cache_get
  rw [hmem, hurl]
  simp only [Bool.false_eq_true, if_false]
  match hmt : entry.file_mtime with
  | none =>
    refine ⟨?_, ?_, ?_⟩
    · simp [hmt]
    · simp
    · intro _; rfl
  | some m =>
    match hfs : fs source with
    | none =>
      refine ⟨?_, ?_, ?_⟩
      · simp [hmt, hfs]
      · simp
      · intro _; rfl
    | some cur =>
      by_cases hne : cur = m
      · refine ⟨?_, ?_, ?_⟩
        · simp only [hne, bne_self_eq_false, if_false]
          simp [hmt, hfs, hne]
        · simp [hne]
        · intro _
          simp [hne]
      · have hb : (cur != m) = true := by simp [hne]
        refine ⟨?_, ?_, ?_⟩
        · simp only [hb, if_true]
          simp only [true_iff]
          exact ⟨m, cur, rfl, rfl, hne⟩
        · intro _
          simp only [hb, if_true]
          exact hlookup_filter entries
        · intro h
          simp only [hb, if_true] at h
          exact absurd rfl h

/-- C5 amended, witnessed at a genuine mtime mismatch: the entry recorded at
mtime 5 whose file now reads mtime 7 is withheld and removed. -/
theorem cache_get_local_mtime_spec_witness :
    is_url_source "icon.png" = false ∧
    ([("icon.png", c5Entry)].lookup "icon.png" = some c5Entry) ∧
    (cache_get c5FsChanged 0 [("icon.png", c5Entry)] "icon.png").1 = none ∧
    ((cache_get c5FsChanged 0 [("icon.png", c5Entry)] "icon.png").2).lookup "icon.png"
        = none :=
  ⟨by decide, by decide,
    (cache_get_local_mtime_spec c5FsChanged 0 [("icon.png", c5Entry)] "icon.png" c5Entry
        (by decide) (by decide)).1.mpr ⟨5, 7, rfl, rfl, by decide⟩,
    (cache_get_local_mtime_spec c5FsChanged 0 [("icon.png", c5Entry)] "icon.png" c5Entry
        (by decide) (by decide)).2.1
      ((cache_get_local_mtime_spec c5FsChanged 0 [("icon.png", c5Entry)] "icon.png" c5Entry
          (by decide) (by decide)).1.mpr ⟨5, 7, rfl, rfl, by decide⟩)⟩

/-- Rust's `f32::clamp(lo, hi)` over `ℚ`. -/
def rust_clamp (x lo hi : ℚ) : ℚ :=
  if x < lo then lo else if x > hi then hi else x

/-- The `format!("{:.3}", v)` write-back formatting, modelled as rounding to
3 decimal places. -/
def fmt3 (v : ℚ) : ℚ :=
  ((round (v * 1000) : ℤ) : ℚ) / 1000

/-- `core/audio.rs::apply_volume_delta` (identical for the mic variant and
for the duplicate in `streamdeck.rs`): the *result* of adding the raw delta
to the current volume is clamped to `[0, 1]`; the delta itself is not
touched.  Returns the `new_volume` before formatting. -/
def apply_volume_delta (current delta : ℚ) : ℚ :=
  rust_clamp (current + delta) 0 1

/-- A `wpctl set-volume` invocation: the target (sink or source) and the
numeric argument written. -/
inductive AudioWrite where
  | sink (arg : ℚ)
  | source (arg : ℚ)
deriving DecidableEq, Repr

/-- The volume write performed by `core/audio.rs::handle_event` for a given
capability and event, with the current sink/source volumes read from
`wpctl get-volume` passed in.  Arms that do not write a volume (mute
toggles, media keys, non-press events) yield `none`. -/
def audio_volume_write (cap : Capability) (event : LogicalEvent)
    (current_sink current_source : ℚ) : Option AudioWrite :=
  match cap, event with
  | Capability.SystemAudio step, LogicalEvent.Encoder e =>
    some (AudioWrite.sink (fmt3 (apply_volume_delta current_sink ((e.delta : ℚ) * step))))
  | Capability.VolumeUp step, LogicalEvent.Button e =>
    if e.pressed then some (AudioWrite.sink (fmt3 (apply_volume_delta current_sink step)))
    else none
  | Capability.VolumeUp step, LogicalEvent.EncoderPress e =>
    if e.pressed then some (AudioWrite.sink (fmt3 (apply_volume_delta current_sink step)))
    else none
  | Capability.VolumeDown step, LogicalEvent.Button e =>
    if e.pressed then some (AudioWrite.sink (fmt3 (apply_volume_delta current_sink (-step))))
    else none
  | Capability.VolumeDown step, LogicalEvent.EncoderPress e =>
    if e.pressed then some (AudioWrite.sink (fmt3 (apply_volume_delta current_sink (-step))))
    else none
  | Capability.Microphone step, LogicalEvent.Encoder e =>
    some (AudioWrite.source (fmt3 (apply_volume_delta current_source ((e.delta : ℚ) * step))))
  | Capability.MicVolumeUp step, LogicalEvent.Button e =>
    if e.pressed then some (AudioWrite.source (fmt3 (apply_volume_delta current_source step)))
    else none
  | Capability.MicVolumeUp step, LogicalEvent.EncoderPress e =>
    if e.pressed then some (AudioWrite.source (fmt3 (apply_volume_delta current_source step)))
    else none
  | Capability.MicVolumeDown step, LogicalEvent.Button e =>
    if e.pressed then some (AudioWrite.source (fmt3 (apply_volume_delta current_source (-step))))
    else none
  | Capability.MicVolumeDown step, LogicalEvent.EncoderPress e =>
    if e.pressed then some (AudioWrite.source (fmt3 (apply_volume_delta current_source (-step))))
    else none
  | _, _ => none

/-- C6 counterexample: `VolumeDown{step=0.05}` on a button press passes the
raw delta `-0.05` to `apply_volume_delta` — a negative applied delta, which
the claim says can never happen — and at current volume `0.5` writes back
`0.45`, not the `0.5` that clamping the delta into `[0,1]` first would
give. -/
theorem volume_delta_negative_counterexample :
    audio_volume_write (Capability.VolumeDown (1/20))
        (LogicalEvent.Button { index := 0, pressed := true }) (1/2) (1/2)
      = some (AudioWrite.sink (9/20)) ∧
    (9/20 : ℚ) < 1/2 ∧
    ((9/20 : ℚ) ≠ rust_clamp ((1/2) + rust_clamp (-(1/20)) 0 1) 0 1) ∧
    (-(1/20) : ℚ) < 0 := by
  refine ⟨?_, by norm_num, ?_, by norm_num⟩
  · simp only [audio_volume_write, apply_volume_delta, rust_clamp, fmt3, if_true]
    norm_num [round_eq]
  · simp only [rust_clamp]
    norm_num

/-- `rust_clamp` into `[0,1]` is `max 0 (min 1 ·)`. -/
theorem rust_clamp_eq_max_min (x : ℚ) : rust_clamp x 0 1 = max 0 (min 1 x) := by
  unfold rust_clamp
  rcases lt_trichotomy x 0 with h | h | h
  · rw [if_pos h]
    have h1 : min 1 x = x := min_eq_right (by linarith)
    rw [h1, max_eq_left (le_of_lt h)]
  · subst h
    norm_num
  · rw [if_neg (not_lt.mpr (le_of_lt h))]
    by_cases h2 : x > 1
    · rw [if_pos h2]
      rw [min_eq_left (le_of_lt h2), max_eq_right zero_le_one]
    · rw [if_neg h2]
      push_neg at h2
      rw [min_eq_right h2, max_eq_right (le_of_lt h)]

/-- C6 amended: the delta handed to `apply_volume_delta` is the raw signed
per-variant delta (`delta·step` for rotations, `+step` / `-step` for the
Up/Down presses) and is *not* clamped; only the resulting volume is clamped,
the value written back being `clamp(current + delta, 0, 1)` formatted to 3
decimal places, which always lies in `[0, 1]`. -/
theorem audio_volume_write_clamp (cs cm step x : ℚ) (i : Nat) (d : Int) :
    audio_volume_write (Capability.SystemAudio step)
        (LogicalEvent.Encoder { index := i, delta := d }) cs cm
      = some (AudioWrite.sink (fmt3 (max 0 (min 1 (cs + d * step))))) ∧
    audio_volume_write (Capability.VolumeUp step)
        (LogicalEvent.Button { index := i, pressed := true }) cs cm
      = some (AudioWrite.sink (fmt3 (max 0 (min 1 (cs + step))))) ∧
    audio_volume_write (Capability.VolumeDown step)
        (LogicalEvent.Button { index := i, pressed := true }) cs cm
      = some (AudioWrite.sink (fmt3 (max 0 (min 1 (cs - step))))) ∧
    audio_volume_write (Capability.Microphone step)
        (LogicalEvent.Encoder { index := i, delta := d }) cs cm
      = some (AudioWrite.source (fmt3 (max 0 (min 1 (cm + d * step))))) ∧
    audio_volume_write (Capability.MicVolumeUp step)
        (LogicalEvent.EncoderPress { index := i, pressed := true }) cs cm
      = some (AudioWrite.source (fmt3 (max 0 (min 1 (cm + step))))) ∧
    audio_volume_write (Capability.MicVolumeDown step)
        (LogicalEvent.EncoderPress { index := i, pressed := true }) cs cm
      = some (AudioWrite.source (fmt3 (max 0 (min 1 (cm - step))))) ∧
    (0 : ℚ) ≤ max 0 (min 1 x) ∧ max 0 (min 1 x) ≤ 1 := by
  refine ⟨?_, ?_, ?_, ?_, ?_, ?_, le_max_left 0 _, ?_⟩
  · simp [audio_volume_write, apply_volume_delta, rust_clamp_eq_max_min]
  · simp [audio_volume_write, apply_volume_delta, rust_clamp_eq_max_min]
  · simp [audio_volume_write, apply_volume_delta, rust_clamp_eq_max_min, sub_eq_add_neg]
  · simp [audio_volume_write, apply_volume_delta, rust_clamp_eq_max_min]
  · simp [audio_volume_write, apply_volume_delta, rust_clamp_eq_max_min]
  · simp [audio_volume_write, apply_volume_delta, rust_clamp_eq_max_min, sub_eq_add_neg]
  · exact max_le (by norm_num) (min_le_left 1 _)

/-- The `shlex` crate's whitespace set: space, tab, newline. -/
def shlex_ws (c : Char) : Bool :=
  c == ' ' || c == Char.ofNat 9 || c == Char.ofNat 10

/-- The lexer states of the `shlex` crate: between words (`Shlex::next`'s
whitespace/comment loop), inside a `#` comment, inside a word
(`parse_word`, carrying the word built so far), inside double quotes
(`parse_double`) and inside single quotes (`parse_single`). -/
inductive ShlexMode where
  | between
  | comment
  | word (acc : List Char)
  | double (acc : List Char)
  | single (acc : List Char)
deriving DecidableEq, Repr

/-- The `shlex` crate's lexer as a state machine over the input characters.
`none` models `had_error` (unterminated quote or dangling backslash), in
which case `shlex::split` returns `None`.  Inside double quotes a backslash
escapes dollar, backquote, double quote and backslash, swallows an escaped
newline, and is kept literally before any other character; inside single
quotes everything is literal; an unterminated quote at end of input is an
error. -/
def shlexRun : ShlexMode → List Char → Option (List String)
  | ShlexMode.between, [] => some []
  | ShlexMode.comment, [] => some []
  | ShlexMode.word acc, [] => some [String.mk acc]
  | ShlexMode.double _, [] => none
  | ShlexMode.single _, [] => none
  | ShlexMode.between, c :: rest =>
    if shlex_ws c then shlexRun ShlexMode.between rest
    else if c == Char.ofNat 35 then shlexRun ShlexMode.comment rest
    else if c == Char.ofNat 34 then shlexRun (ShlexMode.double []) rest
    else if c == Char.ofNat 39 then shlexRun (ShlexMode.single []) rest
    else if c == Char.ofNat 92 then
      match rest with
      | [] => none
      | c2 :: rest2 =>
        shlexRun (ShlexMode.word (if c2 == Char.ofNat 10 then [] else [c2])) rest2
    else shlexRun (ShlexMode.word [c]) rest
  | ShlexMode.comment, c :: rest =>
    if c == Char.ofNat 10 then shlexRun ShlexMode.between rest
    else shlexRun ShlexMode.comment rest
  | ShlexMode.word acc, c :: rest =>
    if shlex_ws c then (shlexRun ShlexMode.between rest).map (fun ws => String.mk acc :: ws)
    else if c == Char.ofNat 34 then shlexRun (ShlexMode.double acc) rest
    else if c == Char.ofNat 39 then shlexRun (ShlexMode.single acc) rest
    else if c == Char.ofNat 92 then
      match rest with
      | [] => none
      | c2 :: rest2 =>
        shlexRun (ShlexMode.word (acc ++ (if c2 == Char.ofNat 10 then [] else [c2]))) rest2
    else shlexRun (ShlexMode.word (acc ++ [c])) rest
  | ShlexMode.double acc, c :: rest =>
    if c == Char.ofNat 34 then shlexRun (ShlexMode.word acc) rest
    else if c == Char.ofNat 92 then
      match rest with
      | [] => none
      | c2 :: rest2 =>
        shlexRun (ShlexMode.double (acc ++
          (if c2 == Char.ofNat 36 || c2 == Char.ofNat 96 || c2 == Char.ofNat 34
              || c2 == Char.ofNat 92 then [c2]
            else if c2 == Char.ofNat 10 then []
            else [Char.ofNat 92, c2]))) rest2
    else shlexRun (ShlexMode.double (acc ++ [c])) rest
  | ShlexMode.single acc, c :: rest =>
    if c == Char.ofNat 39 then shlexRun (ShlexMode.word acc) rest
    else shlexRun (ShlexMode.single (acc ++ [c])) rest

/-- `shlex::split`: the POSIX shell lexer used by
`core/commands.rs::run_shell_command`. -/
def shlexSplit (s : String) : Option (List String) :=
  shlexRun ShlexMode.between s.data

/-- `char::is_whitespace` restricted to ASCII (space, tab, LF, CR); all the
command strings handled here are ASCII. -/
def is_trim_ws (c : Char) : Bool :=
  c == ' ' || c == Char.ofNat 9 || c == Char.ofNat 10 || c == Char.ofNat 13

/-- `str::trim`. -/
def str_trim (s : String) : String :=
  String.mk (((s.data.dropWhile is_trim_ws).reverse.dropWhile is_trim_ws).reverse)

/-- `MIN_COMMAND_INTERVAL` (200 ms), as used by both rate-limiter copies
(`core/commands.rs` and `streamdeck.rs`). -/
def MIN_COMMAND_INTERVAL : Nat := 200

/-- The `COMMAND_RATE_LIMITER` map `key → last-instant`, as an association
list; instants are `Nat` milliseconds. -/
structure RateLimiter where
  times : List (String × Nat)
deriving DecidableEq, Repr

/-- The fresh (empty) rate limiter. -/
def emptyRateLimiter : RateLimiter := { times := [] }

/-- `check_rate_limit` (identical in `core/commands.rs` and
`streamdeck.rs`): deny when the key fired less than 200 ms ago, otherwise
stamp the key with `now` and allow. -/
def check_rate_limit (st : RateLimiter) (now : Nat) (key : String) : Bool × RateLimiter :=
  match st.times.lookup key with
  | some last =>
    if now - last < MIN_COMMAND_INTERVAL then (false, st)
    else (true, { times := (key, now) :: st.times.filter (fun p => p.1 != key) })
  | none => (true, { times := (key, now) :: st.times.filter (fun p => p.1 != key) })

/-- `core/commands.rs::run_shell_command`: trim, reject empty, rate limit,
parse with `shlex::split` (rejecting a failed or empty parse), then spawn
`argv[0]` directly with `argv[1..]` as arguments — no shell.  Returns the
spawned `(program, args)`, if any, and the rate-limiter afterwards. -/
def core_run_shell_command (cmd : String) (st : RateLimiter) (now : Nat) :
    Option (String × List String) × RateLimiter :=
  let c := str_trim cmd
  if c.data.isEmpty then (none, st)
  else
    let rl := check_rate_limit st now ("cmd:" ++ c)
    if ! rl.1 then (none, rl.2)
    else
      match shlexSplit c with
      | some (prog :: args) => (some (prog, args), rl.2)
      | some [] => (none, rl.2)
      | none => (none, rl.2)

/-- `streamdeck.rs::run_shell_command` (the copy called by the HID event
loop's `handle_logical_event`): trim, reject empty, rate limit, then spawn
`sh -c <cmd>` — the whole command line is handed to a shell. -/
def streamdeck_run_shell_command (cmd : String) (st : RateLimiter) (now : Nat) :
    Option (String × List String) × RateLimiter :=
  let c := str_trim cmd
  if c.data.isEmpty then (none, st)
  else
    let rl := check_rate_limit st now ("cmd:" ++ c)
    if ! rl.1 then (none, rl.2)
    else (some ("sh", ["-c", c]), rl.2)

/-- C1: on the command `"echo hi; rm -rf ~"`, the shlex lexer yields the argv
the claim states and `core/commands.rs::run_shell_command` spawns `echo`
directly with those arguments — but the `streamdeck.rs` copy used by the HID
event loop spawns `sh -c "echo hi; rm -rf ~"`, interposing a shell that will
execute the `rm`. -/
theorem run_shell_command_paths :
    shlexSplit "echo hi; rm -rf ~" = some ["echo", "hi;", "rm", "-rf", "~"] ∧
    (core_run_shell_command "echo hi; rm -rf ~" emptyRateLimiter 0).1 =
      some ("echo", ["hi;", "rm", "-rf", "~"]) ∧
    (streamdeck_run_shell_command "echo hi; rm -rf ~" emptyRateLimiter 0).1 =
      some ("sh", ["-c", "echo hi; rm -rf ~"]) := by
  refine ⟨?_, ?_, ?_⟩ <;> rfl

/-- `core/commands.rs::DANGEROUS_CHARS`:
dollar, backquote, `; | & > < ( ) \x7b \x7d [ ] !`, braces, newline, CR. -/
def DANGEROUS_CHARS : List Char :=
  [Char.ofNat 36, Char.ofNat 96, Char.ofNat 59, Char.ofNat 124, Char.ofNat 38,
   Char.ofNat 62, Char.ofNat 60, Char.ofNat 40, Char.ofNat 41, Char.ofNat 123,
   Char.ofNat 125, Char.ofNat 91, Char.ofNat 93, Char.ofNat 33, Char.ofNat 10,
   Char.ofNat 13]

/-- `str::contains("..")` on the character list. -/
def has_dot_dot : List Char → Bool
  | [] => false
  | [_] => false
  | a :: b :: rest => (a == '.' && b == '.') || has_dot_dot (b :: rest)

/-- The allowed absolute-path prefixes of `core/commands.rs::launch_app`. -/
def ALLOWED_PREFIXES : List String :=
  ["/usr/bin/", "/usr/local/bin/", "/bin/", "/opt/"]

/-- `core/commands.rs::launch_app`: trim, reject empty, reject any dangerous
character, reject `..` anywhere, reject absolute paths outside the allowed
prefixes, rate limit, then spawn the program.  Returns the spawned program,
if any, and the rate-limiter afterwards. -/
def core_launch_app (app : String) (st : RateLimiter) (now : Nat) :
    Option String × RateLimiter :=
  let a := str_trim app
  if a.data.isEmpty then (none, st)
  else if a.data.any (fun c => DANGEROUS_CHARS.contains c) then (none, st)
  else if has_dot_dot a.data then (none, st)
  else if str_starts_with a "/" && ! ALLOWED_PREFIXES.any (fun p => str_starts_with a p) then
    (none, st)
  else
    let rl := check_rate_limit st now ("app:" ++ a)
    if ! rl.1 then (none, rl.2) else (some a, rl.2)

/-- `streamdeck.rs::launch_app` (the copy called by the HID event loop):
only rejects empty input, `..` anywhere, and absolute paths containing a
space, then spawns. -/
def streamdeck_launch_app (app : String) (st : RateLimiter) (now : Nat) :
    Option String × RateLimiter :=
  let a := str_trim app
  if a.data.isEmpty then (none, st)
  else if has_dot_dot a.data || (str_starts_with a "/" && a.data.contains ' ') then (none, st)
  else
    let rl := check_rate_limit st now ("app:" ++ a)
    if ! rl.1 then (none, rl.2) else (some a, rl.2)

/-- C7: `core/commands.rs::launch_app` behaves exactly as the claim states
on the three scenario inputs — but the `streamdeck.rs` copy used by the HID
event loop spawns both `/home/x/ls` (absolute path outside the allowlist)
and `ls; rm -rf /` (shell metacharacters) instead of rejecting them. -/
theorem launch_app_paths :
    (core_launch_app "/bin/ls" emptyRateLimiter 0).1 = some "/bin/ls" ∧
    (core_launch_app "/home/x/ls" emptyRateLimiter 0).1 = none ∧
    (core_launch_app "ls; rm -rf /" emptyRateLimiter 0).1 = none ∧
    (streamdeck_launch_app "/home/x/ls" emptyRateLimiter 0).1 = some "/home/x/ls" ∧
    (streamdeck_launch_app "ls; rm -rf /" emptyRateLimiter 0).1 = some "ls; rm -rf /" := by
  refine ⟨?_, ?_, ?_, ?_, ?_⟩ <;> rfl

/-- The URL schemes accepted by `open_url` (`VALID_SCHEMES`). -/
def VALID_SCHEMES : List String := ["http://", "https://", "mailto:", "tel:"]

/-- `core/commands.rs::open_url`: trim, reject empty, allow only the listed
schemes, rate limit, then spawn `xdg-open <url>`. -/
def core_open_url (url : String) (st : RateLimiter) (now : Nat) :
    Option (String × List String) × RateLimiter :=
  let u := str_trim url
  if u.data.isEmpty then (none, st)
  else if ! VALID_SCHEMES.any (fun s => str_starts_with u s) then (none, st)
  else
    let rl := check_rate_limit st now ("url:" ++ u)
    if ! rl.1 then (none, rl.2) else (some ("xdg-open", [u]), rl.2)

/-- `core/commands.rs::binding_key` (same function in `streamdeck.rs`). -/
def binding_key (binding : Binding) : String :=
  let input_key :=
    match binding.input with
    | InputRef.Button index => "btn:" ++ toString index
    | InputRef.Encoder index => "enc:" ++ toString index
    | InputRef.EncoderPress index => "encp:" ++ toString index
    | InputRef.Swipe => "swipe"
  input_key ++ ":" ++ toString binding.page

/-- `HashMap::insert` on the `toggle_states` association list. -/
def insert_assoc (l : List (String × Bool)) (k : String) (v : Bool) : List (String × Bool) :=
  (k, v) :: l.filter (fun p => p.1 != k)

/-- `core/commands.rs::flip_toggle_state` (same function in `streamdeck.rs`):
read the current toggle state (default `false`), store its negation, and
request an image sync. -/
def flip_toggle_state (binding : Binding) (toggle_states : List (String × Bool)) :
    List (String × Bool) :=
  let key := binding_key binding
  let current := (toggle_states.lookup key).getD false
  insert_assoc toggle_states key (!current)

/-- The observable outcome of `core/commands.rs::handle_event`: whether the
event was handled, what was spawned (if anything), the toggle states
afterwards, whether an image sync was requested, and the rate limiter
afterwards. -/
structure CommandHandleResult where
  handled : Bool
  spawned : Option (String × List String)
  toggle_states : List (String × Bool)
  image_sync : Bool
  rate : RateLimiter
deriving DecidableEq, Repr

/-- `core/commands.rs::handle_event`: the RunCommand / LaunchApp / OpenURL
arms, each firing only on the pressed edge of a button or encoder press.
For `RunCommand` with `toggle = true` the toggle state is flipped (with an
image-sync request) after `run_shell_command` returns, unconditionally on
its outcome. -/
def commands_handle_event (event : LogicalEvent) (binding : Binding)
    (toggle_states : List (String × Bool)) (st : RateLimiter) (now : Nat) :
    CommandHandleResult :=
  let unhandled : CommandHandleResult :=
    { handled := false, spawned := none, toggle_states := toggle_states,
      image_sync := false, rate := st }
  match binding.capability, event with
  | Capability.RunCommand command toggle, LogicalEvent.EncoderPress e =>
    if e.pressed then
      let r := core_run_shell_command command st now
      if toggle then
        { handled := true, spawned := r.1,
          toggle_states := flip_toggle_state binding toggle_states,
          image_sync := true, rate := r.2 }
      else
        { handled := true, spawned := r.1, toggle_states := toggle_states,
          image_sync := false, rate := r.2 }
    else unhandled
  | Capability.RunCommand command toggle, LogicalEvent.Button e =>
    if e.pressed then
      let r := core_run_shell_command command st now
      if toggle then
        { handled := true, spawned := r.1,
          toggle_states := flip_toggle_state binding toggle_states,
          image_sync := true, rate := r.2 }
      else
        { handled := true, spawned := r.1, toggle_states := toggle_states,
          image_sync := false, rate := r.2 }
    else unhandled
  | Capability.LaunchApp command, LogicalEvent.EncoderPress e =>
    if e.pressed then
      let r := core_launch_app command st now
      { handled := true, spawned := r.1.map (fun p => (p, [])),
        toggle_states := toggle_states, image_sync := false, rate := r.2 }
    else unhandled
  | Capability.LaunchApp command, LogicalEvent.Button e =>
    if e.pressed then
      let r := core_launch_app command st now
      { handled := true, spawned := r.1.map (fun p => (p, [])),
        toggle_states := toggle_states, image_sync := false, rate := r.2 }
    else unhandled
  | Capability.OpenURL url, LogicalEvent.EncoderPress e =>
    if e.pressed then
      let r := core_open_url url st now
      { handled := true, spawned := r.1, toggle_states := toggle_states,
        image_sync := false, rate := r.2 }
    else unhandled
  | Capability.OpenURL url, LogicalEvent.Button e =>
    if e.pressed then
      let r := core_open_url url st now
      { handled := true, spawned := r.1, toggle_states := toggle_states,
        image_sync := false, rate := r.2 }
    else unhandled
  | _, _ => unhandled

/-- A press edge: a button or encoder-press event with `pressed = true`. -/
def press_edge : LogicalEvent → Bool
  | LogicalEvent.Button e => e.pressed
  | LogicalEvent.EncoderPress e => e.pressed
  | _ => false

/-- C9: for a `RunCommand` binding with `toggle = true`, every press edge
flips the binding's toggle state and requests an image sync, whatever
`run_shell_command` did — the statement quantifies over all commands, rate
states and times, so it covers the empty, rate-limited and unparseable
rejections alike. -/
theorem runcommand_toggle_flips_unconditionally (event : LogicalEvent)
    (binding : Binding) (toggle_states : List (String × Bool)) (st : RateLimiter)
    (now : Nat) (cmd : String)
    (hcap : binding.capability = Capability.RunCommand cmd true)
    (hpress : press_edge event = true) :
    (commands_handle_event event binding toggle_states st now).handled = true ∧
    (commands_handle_event event binding toggle_states st now).image_sync = true ∧
    (commands_handle_event event binding toggle_states st now).toggle_states.lookup
        (binding_key binding) =
      some (! ((toggle_states.lookup (binding_key binding)).getD false)) := by
  have hflip : (flip_toggle_state binding toggle_states).lookup (binding_key binding) =
      some (! ((toggle_states.lookup (binding_key binding)).getD false)) := by
    simp [flip_toggle_state, insert_assoc, List.lookup]
  cases event with
  | Button e =>
    simp only [press_edge] at hpress
    simp [commands_handle_event, hcap, hpress, hflip]
  | EncoderPress e =>
    simp only [press_edge] at hpress
    simp [commands_handle_event, hcap, hpress, hflip]
  | Encoder e => simp [press_edge] at hpress
  | Swipe e => simp [press_edge] at hpress

/-- A toggling RunCommand binding whose command is empty (so that
`run_shell_command` rejects it and spawns nothing). -/
def c9Binding : Binding :=
  { input := InputRef.Button 0, capability := Capability.RunCommand "" true, page := 0,
    icon := none, label := none, button_image := none, button_image_alt := none,
    show_label := none }

/-- C9 witnessed on a rejected (empty) command: nothing is spawned, yet the
press edge flips the toggle state to `true` and requests an image sync. -/
theorem runcommand_toggle_flips_unconditionally_witness :
    (commands_handle_event (LogicalEvent.Button { index := 0, pressed := true })
        c9Binding [] emptyRateLimiter 0).spawned = none ∧
    ((commands_handle_event (LogicalEvent.Button { index := 0, pressed := true })
        c9Binding [] emptyRateLimiter 0).handled = true ∧
     (commands_handle_event (LogicalEvent.Button { index := 0, pressed := true })
        c9Binding [] emptyRateLimiter 0).image_sync = true ∧
     (commands_handle_event (LogicalEvent.Button { index := 0, pressed := true })
        c9Binding [] emptyRateLimiter 0).toggle_states.lookup (binding_key c9Binding) =
       some (! ((List.lookup (binding_key c9Binding) ([] : List (String × Bool))).getD false))) :=
  ⟨by rfl,
    runcommand_toggle_flips_unconditionally
      (LogicalEvent.Button { index := 0, pressed := true }) c9Binding []
      emptyRateLimiter 0 "" rfl rfl⟩

/-- The serde tag written for a `Capability` (`#[serde(tag = "type")]`); on
the wire it is the variant-name string, modelled as an enum (the mapping to
strings is bijective). -/
inductive CapTag where
  | SystemAudio
  | Mute
  | VolumeUp
  | VolumeDown
  | Microphone
  | MicMute
  | MicVolumeUp
  | MicVolumeDown
  | MediaPlayPause
  | MediaNext
  | MediaPrevious
  | MediaStop
  | RunCommand
  | LaunchApp
  | OpenURL
  | ElgatoKeyLight
  | OBSScene
  | OBSStream
  | OBSRecord
  | OBSSourceVisibility
  | OBSAudio
  | OBSStudioMode
  | OBSReplayBuffer
  | OBSVirtualCam
  | OBSTransition
deriving DecidableEq, Repr

/-- The serialized form of a `Capability` in `bindings.toml`: the `type` tag
plus the fields present in the table (`none` = key absent).  Unit-variant
enums (`action`) appear on the wire as their name strings; they are kept as
enums here, one slot per enum type. -/
structure CapRepr where
  tag : CapTag
  step : Option ℚ := none
  command : Option String := none
  toggle : Option Bool := none
  url : Option String := none
  ip : Option String := none
  port : Option Nat := none
  host : Option String := none
  password : Option String := none
  kl_action : Option KeyLightAction := none
  stream_action : Option OBSStreamAction := none
  record_action : Option OBSRecordAction := none
  replay_action : Option OBSReplayAction := none
  scene : Option String := none
  source : Option String := none
  input_name : Option String := none
deriving DecidableEq, Repr

/-- `capability.rs::default_key_light_port`. -/
def default_key_light_port : Nat := 9123

/-- `capability.rs::default_obs_host`. -/
def default_obs_host : String := "127.0.0.1"

/-- `capability.rs::default_obs_port`. -/
def default_obs_port : Nat := 4455

/-- `capability.rs::OBS_AUDIO_STEP` (= `default_obs_audio_step`). -/
def OBS_AUDIO_STEP : ℚ := 1/50

/-- Serde serialization of a `Capability`: every field of the variant is
written (an `Option` field is written only when `Some`, which the TOML
serializer realizes by omitting the key). -/
def serCap : Capability → CapRepr
  | Capability.SystemAudio step => { tag := CapTag.SystemAudio, step := some step }
  | Capability.Mute => { tag := CapTag.Mute }
  | Capability.VolumeUp step => { tag := CapTag.VolumeUp, step := some step }
  | Capability.VolumeDown step => { tag := CapTag.VolumeDown, step := some step }
  | Capability.Microphone step => { tag := CapTag.Microphone, step := some step }
  | Capability.MicMute => { tag := CapTag.MicMute }
  | Capability.MicVolumeUp step => { tag := CapTag.MicVolumeUp, step := some step }
  | Capability.MicVolumeDown step => { tag := CapTag.MicVolumeDown, step := some step }
  | Capability.MediaPlayPause => { tag := CapTag.MediaPlayPause }
  | Capability.MediaNext => { tag := CapTag.MediaNext }
  | Capability.MediaPrevious => { tag := CapTag.MediaPrevious }
  | Capability.MediaStop => { tag := CapTag.MediaStop }
  | Capability.RunCommand command toggle =>
    { tag := CapTag.RunCommand, command := some command, toggle := some toggle }
  | Capability.LaunchApp command => { tag := CapTag.LaunchApp, command := some command }
  | Capability.OpenURL url => { tag := CapTag.OpenURL, url := some url }
  | Capability.ElgatoKeyLight ip port action =>
    { tag := CapTag.ElgatoKeyLight, ip := some ip, port := some port,
      kl_action := some action }
  | Capability.OBSScene host port password scene =>
    { tag := CapTag.OBSScene, host := some host, port := some port,
      password := password, scene := some scene }
  | Capability.OBSStream host port password action =>
    { tag := CapTag.OBSStream, host := some host, port := some port,
      password := password, stream_action := some action }
  | Capability.OBSRecord host port password action =>
    { tag := CapTag.OBSRecord, host := some host, port := some port,
      password := password, record_action := some action }
  | Capability.OBSSourceVisibility host port password scene source =>
    { tag := CapTag.OBSSourceVisibility, host := some host, port := some port,
      password := password, scene := some scene, source := some source }
  | Capability.OBSAudio host port password input_name step =>
    { tag := CapTag.OBSAudio, host := some host, port := some port,
      password := password, input_name := some input_name, step := some step }
  | Capability.OBSStudioMode host port password =>
    { tag := CapTag.OBSStudioMode, host := some host, port := some port,
      password := password }
  | Capability.OBSReplayBuffer host port password action =>
    { tag := CapTag.OBSReplayBuffer, host := some host, port := some port,
      password := password, replay_action := some action }
  | Capability.OBSVirtualCam host port password =>
    { tag := CapTag.OBSVirtualCam, host := some host, port := some port,
      password := password }
  | Capability.OBSTransition host port password =>
    { tag := CapTag.OBSTransition, host := some host, port := some port,
      password := password }

/-- Serde deserialization of a `Capability`: fields without a
`#[serde(default…)]` attribute are required (a missing one fails the
parse); `port`, `host`, `password`, `toggle` and the OBS-audio `step` fall
back to their declared defaults. -/
def deCap (r : CapRepr) : Option Capability :=
  match r.tag with
  | CapTag.SystemAudio => r.step.map Capability.SystemAudio
  | CapTag.Mute => some Capability.Mute
  | CapTag.VolumeUp => r.step.map Capability.VolumeUp
  | CapTag.VolumeDown => r.step.map Capability.VolumeDown
  | CapTag.Microphone => r.step.map Capability.Microphone
  | CapTag.MicMute => some Capability.MicMute
  | CapTag.MicVolumeUp => r.step.map Capability.MicVolumeUp
  | CapTag.MicVolumeDown => r.step.map Capability.MicVolumeDown
  | CapTag.MediaPlayPause => some Capability.MediaPlayPause
  | CapTag.MediaNext => some Capability.MediaNext
  | CapTag.MediaPrevious => some Capability.MediaPrevious
  | CapTag.MediaStop => some Capability.MediaStop
  | CapTag.RunCommand =>
    r.command.map (fun c => Capability.RunCommand c (r.toggle.getD false))
  | CapTag.LaunchApp => r.command.map Capability.LaunchApp
  | CapTag.OpenURL => r.url.map Capability.OpenURL
  | CapTag.ElgatoKeyLight =>
    match r.ip, r.kl_action with
    | some ip, some action =>
      some (Capability.ElgatoKeyLight ip (r.port.getD default_key_light_port) action)
    | _, _ => none
  | CapTag.OBSScene =>
    r.scene.map (fun scene =>
      Capability.OBSScene (r.host.getD default_obs_host) (r.port.getD default_obs_port)
        r.password scene)
  | CapTag.OBSStream =>
    r.stream_action.map (fun action =>
      Capability.OBSStream (r.host.getD default_obs_host) (r.port.getD default_obs_port)
        r.password action)
  | CapTag.OBSRecord =>
    r.record_action.map (fun action =>
      Capability.OBSRecord (r.host.getD default_obs_host) (r.port.getD default_obs_port)
        r.password action)
  | CapTag.OBSSourceVisibility =>
    match r.scene, r.source with
    | some scene, some source =>
      some (Capability.OBSSourceVisibility (r.host.getD default_obs_host)
        (r.port.getD default_obs_port) r.password scene source)
    | _, _ => none
  | CapTag.OBSAudio =>
    r.input_name.map (fun input_name =>
      Capability.OBSAudio (r.host.getD default_obs_host) (r.port.getD default_obs_port)
        r.password input_name (r.step.getD OBS_AUDIO_STEP))
  | CapTag.OBSStudioMode =>
    some (Capability.OBSStudioMode (r.host.getD default_obs_host)
      (r.port.getD default_obs_port) r.password)
  | CapTag.OBSReplayBuffer =>
    r.replay_action.map (fun action =>
      Capability.OBSReplayBuffer (r.host.getD default_obs_host)
        (r.port.getD default_obs_port) r.password action)
  | CapTag.OBSVirtualCam =>
    some (Capability.OBSVirtualCam (r.host.getD default_obs_host)
      (r.port.getD default_obs_port) r.password)
  | CapTag.OBSTransition =>
    some (Capability.OBSTransition (r.host.getD default_obs_host)
      (r.port.getD default_obs_port) r.password)

/-- The serialized form of a `Binding` in `bindings.toml`: `input` and
`capability` are required tagged tables; `page` has `#[serde(default)]`
(missing → 0); the cosmetic `Option` fields are written only when `Some`
(`skip_serializing_if = "Option::is_none"`) and a missing one deserializes
to `None`. -/
structure BindingRepr where
  input : InputRef
  capability : CapRepr
  page : Option Nat := none
  icon : Option String := none
  label : Option String := none
  button_image : Option String := none
  button_image_alt : Option String := none
  show_label : Option Bool := none
deriving DecidableEq, Repr

/-- Serde serialization of a `Binding`. -/
def serBinding (b : Binding) : BindingRepr :=
  { input := b.input, capability := serCap b.capability, page := some b.page,
    icon := b.icon, label := b.label, button_image := b.button_image,
    button_image_alt := b.button_image_alt, show_label := b.show_label }

/-- Serde deserialization of a `Binding`. -/
def deBinding (r : BindingRepr) : Option Binding :=
  (deCap r.capability).map (fun cap =>
    { input := r.input, capability := cap, page := r.page.getD 0,
      icon := r.icon, label := r.label, button_image := r.button_image,
      button_image_alt := r.button_image_alt, show_label := r.show_label })

/-- `config.rs::CONFIG_VERSION`. -/
def CONFIG_VERSION : Nat := 1

/-- The `config.rs::Config` table as serialized to `bindings.toml`
(`version` has `#[serde(default)]` = 1 on load). -/
structure ConfigRepr where
  version : Option Nat
  bindings : List BindingRepr
deriving DecidableEq, Repr

/-- `config.rs::save_bindings`, at the level of the serialized table it
writes: `version = CONFIG_VERSION` and the serialized bindings.  (The
tmp-write / bak-rename / rename dance around it is filesystem I/O.) -/
def save_bindings (bindings : List Binding) : ConfigRepr :=
  { version := some CONFIG_VERSION, bindings := bindings.map serBinding }

/-- `config.rs::load_from_path`, at the level of the parsed table: a newer
`version` only warns; the result is the deserialized binding list, `none`
on a parse failure. -/
def load_bindings_from (c : ConfigRepr) : Option (List Binding) :=
  c.bindings.mapM deBinding

/-- Uniqueness of `(page, input)` pairs over a binding list. -/
def unique_page_inputs : List Binding → Bool
  | [] => true
  | b :: rest =>
    rest.all (fun b2 => !(b.page == b2.page && inputs_match b.input b2.input)) &&
      unique_page_inputs rest

/-- Capability serialization round-trips. -/
theorem deCap_serCap (c : Capability) : deCap (serCap c) = some c := by
  cases c <;> rfl

/-- Binding serialization round-trips. -/
theorem deBinding_serBinding (b : Binding) : deBinding (serBinding b) = some b := by
  unfold deBinding serBinding
  rw [deCap_serCap]
  rfl

/-- C10: saving any binding list with unique `(page, input)` pairs and
loading it back returns the same list (cosmetic `None` fields are omitted on
write and default back to `None` on read), and the save writes
`version = 1`. -/
theorem save_load_roundtrip (S : List Binding) (_huniq : unique_page_inputs S = true) :
    load_bindings_from (save_bindings S) = some S ∧
    (save_bindings S).version = some CONFIG_VERSION := by
  refine ⟨?_, rfl⟩
  unfold load_bindings_from save_bindings
  clear _huniq
  induction S with
  | nil => rfl
  | cons b rest ih =>
    simp only [List.map_cons, List.mapM_cons, deBinding_serBinding]
    simp only [Option.pure_def, Option.bind_eq_bind, Option.some_bind] at ih ⊢
    rw [ih]
    rfl

/-- A two-binding list with unique `(page, input)` pairs, exercising
defaults (`RunCommand` without an explicit toggle image, an OBS capability
without a password). -/
def c10List : List Binding :=
  [{ input := InputRef.Button 0, capability := Capability.RunCommand "echo hi" true,
     page := 0, icon := none, label := some "Hi", button_image := none,
     button_image_alt := none, show_label := none },
   { input := InputRef.Button 0, capability := Capability.OBSScene "127.0.0.1" 4455 none "Main",
     page := 1, icon := none, label := none, button_image := some "scene.png",
     button_image_alt := none, show_label := some true }]

/-- C10 witnessed on a concrete two-binding list (same input on two
different pages — a unique `(page, input)` set). -/
theorem save_load_roundtrip_witness :
    unique_page_inputs c10List = true ∧
    (load_bindings_from (save_bindings c10List) = some c10List ∧
     (save_bindings c10List).version = some CONFIG_VERSION) :=
  ⟨by decide, save_load_roundtrip c10List (by decide)⟩

end DeckSpec
